import Mathlib

/-!
Shallow embedding of the SVG writer in src/svg.h and src/svg.cpp.

Output is modelled as the list of characters written to the `std::ostream`
sink, in order.  C++ `double` values are never computed with, only stored
and printed, so the embedding is parametric in the coordinate type `R`
together with a formatting function `fmt : R → List Char` standing for the
stream's `operator<<` on that type; concrete evaluations instantiate `R`
with `Int` and decimal formatting, on which the default `ostream` printing
of integral doubles agrees.
-/

namespace svg

variable {R : Type}

/-- Source `svg.h`: `struct Point`, two coordinates. -/
structure Point (R : Type) where
  x : R
  y : R
  deriving DecidableEq, Repr

/-- Source `svg.h`: `struct RenderContext` minus the sink reference (output
is returned, not written through a reference).  Both constructors default
`indent_step` and `indent` to 0; the fields are C++ `int`, embedded as `Int`. -/
structure RenderContext where
  indent_step : Int
  indent : Int
  deriving DecidableEq, Repr

/-- Source `svg.h`: `RenderContext::Indented`, returning
`{out, indent_step, indent + indent_step}`. -/
def RenderContext.Indented (c : RenderContext) : RenderContext :=
  ⟨c.indent_step, c.indent + c.indent_step⟩

/-- The loop body of `RenderContext::RenderIndent`:
`for (int i = 0; i < indent; ++i) out.put(' ');`. -/
def indentLoop (indent i : Int) : List Char :=
  if i < indent then ' ' :: indentLoop indent (i + 1) else []
termination_by (indent - i).toNat
decreasing_by omega

/-- Source `svg.h`: `RenderContext::RenderIndent`, the loop started at 0. -/
def RenderContext.RenderIndent (c : RenderContext) : List Char :=
  indentLoop c.indent 0

/-- Source `svg.h`: `class Circle` data members with their in-class defaults
`center_ = {0.0, 0.0}; radius_ = 1.0;` (see `Circle.init`). -/
structure Circle (R : Type) where
  center_ : Point R
  radius_ : R
  deriving DecidableEq, Repr

/-- The in-class initial values of `Circle`. -/
def Circle.init [Zero R] [One R] : Circle R :=
  ⟨⟨0, 0⟩, 1⟩

/-- Source `svg.cpp`: `Circle::SetCenter`. -/
def Circle.SetCenter (c : Circle R) (center : Point R) : Circle R :=
  { c with center_ := center }

/-- Source `svg.cpp`: `Circle::SetRadius`. -/
def Circle.SetRadius (c : Circle R) (radius : R) : Circle R :=
  { c with radius_ := radius }

/-- Source `svg.cpp` (and identically `svg.h`): `Circle::RenderObject`; the
three `out <<` statements are the three appended groups.  Note the space
written after the `cy` value's closing quote and after the `r` value's
closing quote, before `/>`. -/
def Circle.RenderObject (fmt : R → List Char) (c : Circle R) : List Char :=
  ("<circle cx=\"".toList ++ fmt c.center_.x ++ "\" cy=\"".toList ++ fmt c.center_.y
      ++ "\" ".toList)
    ++ ("r=\"".toList ++ fmt c.radius_ ++ "\" ".toList)
    ++ "/>".toList

/-- Source `svg.h`: `class Polyline` data member `all_point_`. -/
structure Polyline (R : Type) where
  all_point_ : List (Point R)
  deriving DecidableEq, Repr

/-- Source `svg.h`: `Polyline::AddPoint`, a `push_back`. -/
def Polyline.AddPoint (pl : Polyline R) (point : Point R) : Polyline R :=
  ⟨pl.all_point_ ++ [point]⟩

/-- Source `svg.h`: `Polyline::RenderObject`.  The opening literal is
`"polyline points=\""` exactly as written there: no leading `<`, and no
closing quote is ever written before `/>`.  Each point contributes
`x`, `,`, `y`, space. -/
def Polyline.RenderObject (fmt : R → List Char) (pl : Polyline R) : List Char :=
  "polyline points=\"".toList
    ++ (pl.all_point_.map (fun point => fmt point.x ++ ",".toList ++ fmt point.y
      ++ " ".toList)).flatten
    ++ "/>".toList

/-- The double-quote character. -/
def quotC : Char := '"'

/-- The apostrophe character (code point 39). -/
def aposC : Char := Char.ofNat 39

/-- Escape text for `&`. -/
def ampEsc : List Char := ['&', 'a', 'm', 'p', ';']

/-- Escape text for `<`. -/
def ltEsc : List Char := ['&', 'l', 't', ';']

/-- Escape text for `>`. -/
def gtEsc : List Char := ['&', 'g', 't', ';']

/-- Escape text for the double quote. -/
def quotEsc : List Char := ['&', 'q', 'u', 'o', 't', ';']

/-- Escape text for the apostrophe. -/
def aposEsc : List Char := ['&', 'a', 'p', 'o', 's', ';']

/-- Replace every occurrence of the character `c` by the text `rep`. -/
def replaceChar (c : Char) (rep : List Char) : List Char → List Char
  | [] => []
  | x :: xs => if x = c then rep ++ replaceChar c rep xs else x :: replaceChar c rep xs

/-- Modelled from the spec: the XML escaping of string content, absent from
the source (`Text` has no render code).  The five substitutions are applied
in the spec's order: `&`, then `<`, then `>`, then the double quote, then
the apostrophe. -/
def escapeXml (s : List Char) : List Char :=
  replaceChar aposC aposEsc
    (replaceChar quotC quotEsc
      (replaceChar '>' gtEsc
        (replaceChar '<' ltEsc
          (replaceChar '&' ampEsc s))))

/-- The text `escapeXml` produces for one input character. -/
def escChunk (x : Char) : List Char :=
  if x = '&' then ampEsc
  else if x = '<' then ltEsc
  else if x = '>' then gtEsc
  else if x = quotC then quotEsc
  else if x = aposC then aposEsc
  else [x]

/-- A chunk of well-escaped output: one of the five escape texts, or a
single character that is none of the five escapable characters. -/
def okChunkP (ch : List Char) : Prop :=
  ch = ampEsc ∨ ch = ltEsc ∨ ch = gtEsc ∨ ch = quotEsc ∨ ch = aposEsc ∨
    ∃ c, ch = [c] ∧ ¬(c = '&' ∨ c = '<' ∨ c = '>' ∨ c = quotC ∨ c = aposC)

/-- Source `svg.h`: `class Text` state.  The members are modelled from the
`svg.cpp` setter bodies (`pos_`, `offset_`, `font_size`, `font_family_`,
`font_weight_`, `data_`); the header declares no data members. -/
structure Text (R : Type) where
  pos_ : Point R
  offset_ : Point R
  font_size : Nat
  font_family_ : Option (List Char)
  font_weight_ : Option (List Char)
  data_ : List Char
  deriving DecidableEq, Repr

/-- Modelled from the spec: the default-constructed `Text` (the source
declares no members, hence no defaults): position (0,0), offset (0,0),
font size 1, no family, no weight, empty data. -/
def Text.init [Zero R] : Text R :=
  ⟨⟨0, 0⟩, ⟨0, 0⟩, 1, none, none, []⟩

/-- Source `svg.cpp`: `Text::SetPosition`. -/
def Text.SetPosition (t : Text R) (pos : Point R) : Text R :=
  { t with pos_ := pos }

/-- Source `svg.cpp`: `Text::SetOffset`. -/
def Text.SetOffset (t : Text R) (offset : Point R) : Text R :=
  { t with offset_ := offset }

/-- Source `svg.cpp`: `Text::SetFontSize` (`uint32_t`, stored verbatim). -/
def Text.SetFontSize (t : Text R) (size : Nat) : Text R :=
  { t with font_size := size }

/-- Source `svg.cpp`: `Text::SetFontFamily`. -/
def Text.SetFontFamily (t : Text R) (font_family : List Char) : Text R :=
  { t with font_family_ := some font_family }

/-- Source `svg.cpp`: `Text::SetFontWeight`. -/
def Text.SetFontWeight (t : Text R) (font_weight : List Char) : Text R :=
  { t with font_weight_ := some font_weight }

/-- Source `svg.cpp`: `Text::SetData`. -/
def Text.SetData (t : Text R) (data : List Char) : Text R :=
  { t with data_ := data }

/-- Modelled from the spec: `Text`'s element emission, absent from the
source (no `RenderObject` override exists for `Text`): the `<text>` element
with mandatory `x`, `y`, `dx`, `dy`, `font-size` attributes, then the
optional `font-family` and `font-weight` attributes in that order, each
emitted only when set, then the escaped content. -/
def Text.RenderObject (fmt : R → List Char) (t : Text R) : List Char :=
  "<text x=\"".toList ++ fmt t.pos_.x
    ++ "\" y=\"".toList ++ fmt t.pos_.y
    ++ "\" dx=\"".toList ++ fmt t.offset_.x
    ++ "\" dy=\"".toList ++ fmt t.offset_.y
    ++ "\" font-size=\"".toList ++ (toString t.font_size).toList
    ++ "\"".toList
    ++ (match t.font_family_ with
      | none => []
      | some fam => " font-family=\"".toList ++ escapeXml fam ++ "\"".toList)
    ++ (match t.font_weight_ with
      | none => []
      | some wt => " font-weight=\"".toList ++ escapeXml wt ++ "\"".toList)
    ++ ">".toList ++ escapeXml t.data_ ++ "</text>".toList

/-- Source `svg.h`: the closed set of shapes held behind `Object`
pointers (`Circle`, `Polyline`, `Text`). -/
inductive Object (R : Type) where
  | circle : Circle R → Object R
  | polyline : Polyline R → Object R
  | text : Text R → Object R
  deriving DecidableEq, Repr

/-- The virtual `RenderObject` dispatch of `class Object`. -/
def Object.RenderObject (fmt : R → List Char) : Object R → List Char
  | .circle c => c.RenderObject fmt
  | .polyline pl => pl.RenderObject fmt
  | .text t => t.RenderObject fmt

/-- Source `svg.cpp`: `Object::Render`: the indent, the element body, then
`std::endl` (one newline). -/
def Object.Render (fmt : R → List Char) (context : RenderContext) (o : Object R) :
    List Char :=
  context.RenderIndent ++ o.RenderObject fmt ++ ['\n']

/-- Source `svg.h`: `class Document` state, the vector `all_obj_`. -/
structure Document (R : Type) where
  all_obj_ : List (Object R)
  deriving DecidableEq, Repr

/-- Source `svg.h`: `Document::Add`, an `emplace_back` of the moved shape.
The body names the vector `objects_` while the only declared member is
`all_obj_`; modelled (as the spec directs for this incomplete code) as an
append to the document's single child sequence. -/
def Document.Add (d : Document R) (obj : Object R) : Document R :=
  ⟨d.all_obj_ ++ [obj]⟩

/-- Source `svg.h`: `Document::Render`.  Each child is rendered through
`i->Render(out)`, the `ostream` converting to a `RenderContext` with
`indent_step = 0` and `indent = 0`; nothing is written besides the
children. -/
def Document.Render (fmt : R → List Char) (d : Document R) : List Char :=
  (d.all_obj_.map (fun i => i.Render fmt ⟨0, 0⟩)).flatten

/-- State-passing form of the `const` method `Document::Render`: the bytes
written and the document after the call. -/
def Document.RenderSt (fmt : R → List Char) (d : Document R) :
    List Char × Document R :=
  (d.Render fmt, d)

/-- Decimal formatting of an integral coordinate, as C++ default `ostream`
formatting prints an integral (small) `double`. -/
def fmtInt : Int → List Char := fun n => (toString n).toList

/-! Helper lemmas. -/

/-- The indent loop writes one space per remaining unit of `indent - i`. -/
theorem indentLoop_replicate :
    ∀ (n : Nat) (indent i : Int), (indent - i).toNat = n →
      indentLoop indent i = List.replicate n ' ' := by
  intro n
  induction n with
  | zero =>
    intro indent i h
    rw [indentLoop, if_neg (by omega)]
    rfl
  | succ k ih =>
    intro indent i h
    rw [indentLoop, if_pos (by omega : i < indent), List.replicate_succ]
    exact congrArg (List.cons ' ') (ih indent (i + 1) (by omega))

/-- `RenderIndent` in closed form. -/
theorem RenderIndent_eq (c : RenderContext) :
    c.RenderIndent = List.replicate c.indent.toNat ' ' :=
  indentLoop_replicate c.indent.toNat c.indent 0 (by omega)

/-- `replaceChar` distributes over concatenation. -/
theorem replaceChar_append (c : Char) (rep a b : List Char) :
    replaceChar c rep (a ++ b) = replaceChar c rep a ++ replaceChar c rep b := by
  induction a with
  | nil => simp [replaceChar]
  | cons x xs ih =>
    by_cases hx : x = c <;> simp [replaceChar, hx, ih, List.append_assoc]

/-- `replaceChar` on a matching head character. -/
theorem replaceChar_cons_eq (c : Char) (rep xs : List Char) :
    replaceChar c rep (c :: xs) = rep ++ replaceChar c rep xs := by
  simp [replaceChar]

/-- `replaceChar` on a non-matching head character. -/
theorem replaceChar_cons_ne (c : Char) (rep : List Char) (x : Char) (xs : List Char)
    (h : ¬x = c) : replaceChar c rep (x :: xs) = x :: replaceChar c rep xs := by
  simp [replaceChar, h]

/-- `escapeXml` rewrites one character at a time. -/
theorem escapeXml_cons (x : Char) (xs : List Char) :
    escapeXml (x :: xs) = escChunk x ++ escapeXml xs := by
  by_cases h1 : x = '&'
  · subst h1
    unfold escapeXml
    rw [replaceChar_cons_eq '&' ampEsc xs,
      replaceChar_append, (by decide : replaceChar '<' ltEsc ampEsc = ampEsc),
      replaceChar_append, (by decide : replaceChar '>' gtEsc ampEsc = ampEsc),
      replaceChar_append, (by decide : replaceChar quotC quotEsc ampEsc = ampEsc),
      replaceChar_append, (by decide : replaceChar aposC aposEsc ampEsc = ampEsc),
      (by decide : escChunk '&' = ampEsc)]
  by_cases h2 : x = '<'
  · subst h2
    unfold escapeXml
    rw [replaceChar_cons_ne '&' ampEsc '<' xs (by decide),
      replaceChar_cons_eq '<' ltEsc _,
      replaceChar_append, (by decide : replaceChar '>' gtEsc ltEsc = ltEsc),
      replaceChar_append, (by decide : replaceChar quotC quotEsc ltEsc = ltEsc),
      replaceChar_append, (by decide : replaceChar aposC aposEsc ltEsc = ltEsc),
      (by decide : escChunk '<' = ltEsc)]
  by_cases h3 : x = '>'
  · subst h3
    unfold escapeXml
    rw [replaceChar_cons_ne '&' ampEsc '>' xs (by decide),
      replaceChar_cons_ne '<' ltEsc '>' _ (by decide),
      replaceChar_cons_eq '>' gtEsc _,
      replaceChar_append, (by decide : replaceChar quotC quotEsc gtEsc = gtEsc),
      replaceChar_append, (by decide : replaceChar aposC aposEsc gtEsc = gtEsc),
      (by decide : escChunk '>' = gtEsc)]
  by_cases h4 : x = quotC
  · subst h4
    unfold escapeXml
    rw [replaceChar_cons_ne '&' ampEsc quotC xs (by decide),
      replaceChar_cons_ne '<' ltEsc quotC _ (by decide),
      replaceChar_cons_ne '>' gtEsc quotC _ (by decide),
      replaceChar_cons_eq quotC quotEsc _,
      replaceChar_append, (by decide : replaceChar aposC aposEsc quotEsc = quotEsc),
      (by decide : escChunk quotC = quotEsc)]
  by_cases h5 : x = aposC
  · subst h5
    unfold escapeXml
    rw [replaceChar_cons_ne '&' ampEsc aposC xs (by decide),
      replaceChar_cons_ne '<' ltEsc aposC _ (by decide),
      replaceChar_cons_ne '>' gtEsc aposC _ (by decide),
      replaceChar_cons_ne quotC quotEsc aposC _ (by decide),
      replaceChar_cons_eq aposC aposEsc _,
      (by decide : escChunk aposC = aposEsc)]
  · unfold escapeXml
    rw [replaceChar_cons_ne '&' ampEsc x xs h1,
      replaceChar_cons_ne '<' ltEsc x _ h2,
      replaceChar_cons_ne '>' gtEsc x _ h3,
      replaceChar_cons_ne quotC quotEsc x _ h4,
      replaceChar_cons_ne aposC aposEsc x _ h5]
    simp [escChunk, h1, h2, h3, h4, h5]

/-- Every per-character chunk is well escaped. -/
theorem okChunkP_escChunk (x : Char) : okChunkP (escChunk x) := by
  by_cases h1 : x = '&'
  · subst h1; exact Or.inl (by decide)
  by_cases h2 : x = '<'
  · subst h2; exact Or.inr (Or.inl (by decide))
  by_cases h3 : x = '>'
  · subst h3; exact Or.inr (Or.inr (Or.inl (by decide)))
  by_cases h4 : x = quotC
  · subst h4; exact Or.inr (Or.inr (Or.inr (Or.inl (by decide))))
  by_cases h5 : x = aposC
  · subst h5; exact Or.inr (Or.inr (Or.inr (Or.inr (Or.inl (by decide)))))
  · refine Or.inr (Or.inr (Or.inr (Or.inr (Or.inr ⟨x, ?_, ?_⟩))))
    · simp [escChunk, h1, h2, h3, h4, h5]
    · simp [h1, h2, h3, h4, h5]

/-- Folding `Add` appends the added shapes in order. -/
theorem foldl_Add_all_obj (shapes : List (Object R)) :
    ∀ d : Document R, (shapes.foldl Document.Add d).all_obj_ = d.all_obj_ ++ shapes := by
  induction shapes with
  | nil => intro d; simp
  | cons s ss ih => intro d; simp [ih, Document.Add]

/-! The claims. -/

/-- C1: the claim says `Document::Render` writes the XML prologue line, the
`<svg ...>` open line, each child indented by `indent_step` (default 2)
spaces, and `</svg>`; the source's `Document::Render` writes none of that:
on the empty document it writes nothing at all, not the claimed three-line
skeleton. -/
theorem document_render_empty_is_bare :
    Document.Render fmtInt (⟨[]⟩ : Document Int) = [] ∧
    ([] : List Char) ≠
      ("<?xml version=\"1.0\" encoding=\"UTF-8\" ?>\n<svg xmlns=\"http://www.w3.org/2000/svg\" version=\"1.1\">\n</svg>\n").toList :=
  ⟨rfl, by decide⟩

/-- C2: shapes added through `Document::Add` in order s1, ..., sN render as
exactly the concatenation of their element emissions, each followed by a
newline, in insertion order — so each element line occurs in the output and
in exactly that order. -/
theorem document_render_preserves_insertion_order (R : Type) (fmt : R → List Char)
    (shapes : List (Object R)) :
    Document.Render fmt (shapes.foldl Document.Add ⟨[]⟩) =
      (shapes.map (fun s => s.RenderObject fmt ++ ['\n'])).flatten := by
  simp [Document.Render, Object.Render, foldl_Add_all_obj, RenderIndent_eq]

/-- C3: a `Text` built by the setters emits exactly
`<text x=".." y=".." dx=".." dy=".." font-size=".."[ font-family=".."][ font-weight=".."]>escaped-data</text>`,
the optional attributes appearing, in that order, exactly when the
corresponding setter was called — all four configurations: neither set,
only font-family set, only font-weight set, both set; the
default-constructed `Text` has position (0,0), offset (0,0), font size 1,
no family, no weight and empty data. -/
theorem text_render_element_form (R : Type) [Zero R] (fmt : R → List Char)
    (p o : Point R) (sz : Nat) (fam wt dat : List Char) :
    Text.RenderObject fmt
        (((((Text.init : Text R).SetPosition p).SetOffset o).SetFontSize sz).SetData dat) =
      "<text x=\"".toList ++ fmt p.x ++ "\" y=\"".toList ++ fmt p.y
        ++ "\" dx=\"".toList ++ fmt o.x ++ "\" dy=\"".toList ++ fmt o.y
        ++ "\" font-size=\"".toList ++ (toString sz).toList ++ "\"".toList
        ++ ">".toList ++ escapeXml dat ++ "</text>".toList ∧
    Text.RenderObject fmt
        ((((((Text.init : Text R).SetPosition p).SetOffset o).SetFontSize
          sz).SetFontFamily fam).SetData dat) =
      "<text x=\"".toList ++ fmt p.x ++ "\" y=\"".toList ++ fmt p.y
        ++ "\" dx=\"".toList ++ fmt o.x ++ "\" dy=\"".toList ++ fmt o.y
        ++ "\" font-size=\"".toList ++ (toString sz).toList ++ "\"".toList
        ++ (" font-family=\"".toList ++ escapeXml fam ++ "\"".toList)
        ++ ">".toList ++ escapeXml dat ++ "</text>".toList ∧
    Text.RenderObject fmt
        ((((((Text.init : Text R).SetPosition p).SetOffset o).SetFontSize
          sz).SetFontWeight wt).SetData dat) =
      "<text x=\"".toList ++ fmt p.x ++ "\" y=\"".toList ++ fmt p.y
        ++ "\" dx=\"".toList ++ fmt o.x ++ "\" dy=\"".toList ++ fmt o.y
        ++ "\" font-size=\"".toList ++ (toString sz).toList ++ "\"".toList
        ++ (" font-weight=\"".toList ++ escapeXml wt ++ "\"".toList)
        ++ ">".toList ++ escapeXml dat ++ "</text>".toList ∧
    Text.RenderObject fmt
        (((((((Text.init : Text R).SetPosition p).SetOffset o).SetFontSize
          sz).SetFontFamily fam).SetFontWeight wt).SetData dat) =
      "<text x=\"".toList ++ fmt p.x ++ "\" y=\"".toList ++ fmt p.y
        ++ "\" dx=\"".toList ++ fmt o.x ++ "\" dy=\"".toList ++ fmt o.y
        ++ "\" font-size=\"".toList ++ (toString sz).toList ++ "\"".toList
        ++ (" font-family=\"".toList ++ escapeXml fam ++ "\"".toList)
        ++ (" font-weight=\"".toList ++ escapeXml wt ++ "\"".toList)
        ++ ">".toList ++ escapeXml dat ++ "</text>".toList ∧
    (Text.init : Text R) = ⟨⟨0, 0⟩, ⟨0, 0⟩, 1, none, none, []⟩ := by
  refine ⟨?_, ?_, ?_, ?_, rfl⟩
  · simp [Text.RenderObject, Text.init, Text.SetPosition, Text.SetOffset,
      Text.SetFontSize, Text.SetData, List.append_assoc]
  · simp [Text.RenderObject, Text.init, Text.SetPosition, Text.SetOffset,
      Text.SetFontSize, Text.SetFontFamily, Text.SetData, List.append_assoc]
  · simp [Text.RenderObject, Text.init, Text.SetPosition, Text.SetOffset,
      Text.SetFontSize, Text.SetFontWeight, Text.SetData, List.append_assoc]
  · simp [Text.RenderObject, Text.init, Text.SetPosition, Text.SetOffset,
      Text.SetFontSize, Text.SetFontFamily, Text.SetFontWeight, Text.SetData,
      List.append_assoc]

/-- C4: the claim (and the spec) say a `Polyline` emits
`<polyline points="..."/>`; the source's `Polyline::RenderObject` emits no
leading `<` and never closes the attribute's quote: the empty polyline
emits `polyline points="/>` instead of `<polyline points=""/>`, and three
points (0,0), (10,10), (20,0) emit `polyline points="0,0 10,10 20,0 />`
(the point list itself is formatted as claimed). -/
theorem polyline_render_missing_bracket_and_quote :
    Polyline.RenderObject fmtInt ⟨[]⟩ = "polyline points=\"/>".toList ∧
    Polyline.RenderObject fmtInt ⟨[]⟩ ≠ "<polyline points=\"\"/>".toList ∧
    Polyline.RenderObject fmtInt ⟨[⟨0, 0⟩, ⟨10, 10⟩, ⟨20, 0⟩]⟩ =
      "polyline points=\"0,0 10,10 20,0 />".toList := by
  refine ⟨by decide, by decide, by decide⟩

/-- C5 counterexample: the example circle with center (20,30) and radius 15
does not emit the claimed `<circle cx="20" cy="30" r="15"/>` — the source
writes a space before `/>`. -/
theorem circle_render_example_counterexample :
    Circle.RenderObject fmtInt ⟨⟨20, 30⟩, 15⟩ ≠
      "<circle cx=\"20\" cy=\"30\" r=\"15\"/>".toList := by decide

/-- C5 (amended): every `Circle` emits exactly
`<circle cx="{cx}" cy="{cy}" r="{r}" />` — with a single space between the
`r` value's closing quote and `/>` — and the example circle with center
(20,30) and radius 15 emits `<circle cx="20" cy="30" r="15" />`. -/
theorem circle_render_element_form :
    (∀ (R : Type) (fmt : R → List Char) (c : Circle R),
      Circle.RenderObject fmt c =
        "<circle cx=\"".toList ++ fmt c.center_.x ++ "\" cy=\"".toList ++ fmt c.center_.y
          ++ "\" ".toList ++ "r=\"".toList ++ fmt c.radius_ ++ "\" ".toList
          ++ "/>".toList) ∧
    Circle.RenderObject fmtInt ⟨⟨20, 30⟩, 15⟩ =
      "<circle cx=\"20\" cy=\"30\" r=\"15\" />".toList := by
  constructor
  · intro R fmt c
    simp [Circle.RenderObject, List.append_assoc]
  · decide

/-- C6: the escaped form of any string is the concatenation of one chunk
per input character, each chunk being one of the five escape texts
`&amp;` `&lt;` `&gt;` `&quot;` `&apos;` or a single character that is none
of `&` `<` `>` `"` `'` — so no raw escapable character survives and every
`&` in the output starts an escape. -/
theorem escape_completeness (s : List Char) :
    escapeXml s = (s.map escChunk).flatten ∧ (s.map escChunk).Forall okChunkP := by
  induction s with
  | nil => exact ⟨rfl, trivial⟩
  | cons x xs ih =>
    refine ⟨?_, ?_⟩
    · rw [List.map_cons, List.flatten_cons, escapeXml_cons, ih.1]
    · rw [List.map_cons, List.forall_cons]
      exact ⟨okChunkP_escChunk x, ih.2⟩

/-- C7: rendering is a pure function of the document: the state-passing
form of the `const` method `Render` leaves the children untouched, and a
second call on the post-state writes byte-identical output. -/
theorem render_deterministic_and_pure (R : Type) (fmt : R → List Char)
    (d : Document R) :
    Document.RenderSt fmt d = (Document.Render fmt d, d) ∧
    (Document.RenderSt fmt (Document.RenderSt fmt d).2).1 =
      (Document.RenderSt fmt d).1 :=
  ⟨rfl, rfl⟩

/-- C8: for every setter of every shape, setting a field twice renders
exactly as setting it once with the second value. -/
theorem setter_overwrite_last_wins (R : Type) (fmt : R → List Char)
    (c : Circle R) (t : Text R) (p1 p2 q1 q2 : Point R) (r1 r2 : R)
    (n1 n2 : Nat) (f1 f2 w1 w2 d1 d2 : List Char) :
    Circle.RenderObject fmt ((c.SetCenter p1).SetCenter p2) =
      Circle.RenderObject fmt (c.SetCenter p2) ∧
    Circle.RenderObject fmt ((c.SetRadius r1).SetRadius r2) =
      Circle.RenderObject fmt (c.SetRadius r2) ∧
    Text.RenderObject fmt ((t.SetPosition p1).SetPosition p2) =
      Text.RenderObject fmt (t.SetPosition p2) ∧
    Text.RenderObject fmt ((t.SetOffset q1).SetOffset q2) =
      Text.RenderObject fmt (t.SetOffset q2) ∧
    Text.RenderObject fmt ((t.SetFontSize n1).SetFontSize n2) =
      Text.RenderObject fmt (t.SetFontSize n2) ∧
    Text.RenderObject fmt ((t.SetFontFamily f1).SetFontFamily f2) =
      Text.RenderObject fmt (t.SetFontFamily f2) ∧
    Text.RenderObject fmt ((t.SetFontWeight w1).SetFontWeight w2) =
      Text.RenderObject fmt (t.SetFontWeight w2) ∧
    Text.RenderObject fmt ((t.SetData d1).SetData d2) =
      Text.RenderObject fmt (t.SetData d2) :=
  ⟨rfl, rfl, rfl, rfl, rfl, rfl, rfl, rfl⟩

/-- C9: when `indent_step > 0` divides `indent`, `Indented()` keeps
`indent_step`, sets `indent` to `indent + indent_step`, and the result's
`indent` is again a multiple of `indent_step` (the receiver is a value and
is unchanged: `Indented` is a pure function of it). -/
theorem indented_preserves_step_and_multiple (c : RenderContext)
    (_hs : 0 < c.indent_step) (hd : c.indent_step ∣ c.indent) :
    c.Indented.indent_step = c.indent_step ∧
    c.Indented.indent = c.indent + c.indent_step ∧
    c.indent_step ∣ c.Indented.indent :=
  ⟨rfl, rfl, dvd_add hd dvd_rfl⟩

/-- C9 witness: the context with `indent_step = 2`, `indent = 4`. -/
theorem indented_preserves_step_and_multiple_witness :
    ((0 : Int) < 2 ∧ (2 : Int) ∣ 4) ∧
    ((RenderContext.mk 2 4).Indented.indent_step = 2 ∧
      (RenderContext.mk 2 4).Indented.indent = 4 + 2 ∧
      (2 : Int) ∣ (RenderContext.mk 2 4).Indented.indent) :=
  ⟨⟨by norm_num, ⟨2, by norm_num⟩⟩,
    indented_preserves_step_and_multiple ⟨2, 4⟩ (by norm_num) ⟨2, by norm_num⟩⟩

/-- C10: `RenderIndent` is total on every context the public constructor
accepts (any `int` indent): it writes exactly `max(indent, 0)` spaces and
nothing else; in particular a context with negative indent writes
nothing. -/
theorem renderIndent_total_max_spaces :
    (∀ c : RenderContext, c.RenderIndent = List.replicate (max c.indent 0).toNat ' ') ∧
    (RenderContext.mk 0 (-3)).RenderIndent = [] := by
  constructor
  · intro c
    rw [RenderIndent_eq]
    congr 1
    omega
  · rw [RenderIndent_eq]
    decide

end svg
